import Mathlib

/-!
Shallow embedding of `src/main.py` of the Cloud-File-Upload service.

The service forwards an uploaded file to up to three storage backends
(AWS S3, Google Cloud Storage, Google Drive).  Configuration values come
from environment variables read once at startup (`CloudConfig`); vendor
client behaviour is a parameter (`VendorEnv`).  Each HTTP handler is
embedded as a pure function returning an `Except HttpError` result
together with the updated upload-file stream state and a trace of the
vendor-client interactions it performed.
-/

/-- A byte of file content (the value range is irrelevant to the
properties proved here). -/
abbrev Byte := Nat

/-- Environment-derived configuration, mirroring class `CloudConfig` in
`src/main.py`.  Fields read with `os.getenv(name)` are `Option String`
(absent variable = `none`); fields read with a default are `String`. -/
structure CloudConfig where
  awsAccessKeyId : Option String
  awsSecretAccessKey : Option String
  awsRegion : String
  s3BucketName : Option String
  gcsBucketName : Option String
  googleApplicationCredentials : Option String
  googleDriveCredentialsFile : Option String
  googleDriveTokenFile : String
  googleDriveFolderId : Option String
deriving DecidableEq, Repr

/-- Python truthiness of an optional string setting: `None` and the
empty string are falsy, any other string is truthy. -/
def truthy : Option String → Bool
  | none => false
  | some s => !s.isEmpty

/-- State of the multipart `UploadFile` stream: its metadata plus the
current read cursor. -/
structure UploadFileState where
  filename : String
  contentType : String
  content : List Byte
  pos : Nat
deriving DecidableEq, Repr

/-- Model of `await file.read()`: returns the bytes from the cursor to
the end and leaves the cursor at the end. -/
def fileRead (f : UploadFileState) : List Byte × UploadFileState :=
  (f.content.drop f.pos, { f with pos := f.content.length })

/-- Model of `await file.seek(0)`. -/
def fileSeek0 (f : UploadFileState) : UploadFileState :=
  { f with pos := 0 }

/-- Arguments of `s3_client.put_object(...)`. -/
structure S3PutObjectCall where
  bucket : String
  key : String
  body : List Byte
  contentType : String
deriving DecidableEq, Repr

/-- Errors a `put_object` call can raise, mirroring the `except` clauses
of `upload_to_s3`: `NoCredentialsError`, `ClientError`, or any other
exception. -/
inductive S3Error where
  | noCredentials
  | clientError (msg : String)
  | otherError (msg : String)
deriving DecidableEq, Repr

/-- Arguments of `blob.upload_from_string(...)` (the blob is named by
bucket and blob name). -/
structure GcsUploadCall where
  bucket : String
  blobName : String
  data : List Byte
  contentType : String
deriving DecidableEq, Repr

/-- Arguments of `service.files().create(...)` in `upload_to_drive`. -/
structure DriveCreateCall where
  name : String
  data : List Byte
  mimeType : String
  parents : Option String
deriving DecidableEq, Repr

/-- The dictionary returned by the Drive `create` call; the handler
accesses it with `.get(...)`, so each field is optional. -/
structure DriveCreatedFile where
  id : Option String
  webViewLink : Option String
deriving DecidableEq, Repr

/-- State of the OAuth credentials loaded from the token file, with the
attributes `get_drive_service` inspects. -/
structure DriveCredsState where
  valid : Bool
  expired : Bool
  hasRefreshToken : Bool
deriving DecidableEq, Repr

/-- One object of an S3 `list_objects_v2` response. -/
structure S3Object where
  key : String
  size : Nat
  lastModifiedIso : String
deriving DecidableEq, Repr

/-- One blob of a GCS `list_blobs` response; `updated` may be `None`. -/
structure GcsBlobInfo where
  name : String
  size : Nat
  updatedIso : Option String
deriving DecidableEq, Repr

/-- One file of a Drive `files().list` response. -/
structure DriveListedFile where
  id : String
  name : String
  mimeType : String
  modifiedTime : String
  size : Nat
  webViewLink : String
deriving DecidableEq, Repr

/-- Behaviour of the vendor client libraries and of the filesystem the
Drive auth flow reads, treated as an oracle the handlers query. -/
structure VendorEnv where
  s3ClientInit : Except String Unit
  s3PutObject : S3PutObjectCall → Except S3Error Unit
  s3ListObjects : String → Except String (List S3Object)
  gcsClientInit : Except String Unit
  gcsUploadFromString : GcsUploadCall → Except String Unit
  gcsListBlobs : String → Except String (List GcsBlobInfo)
  pathExists : String → Bool
  loadAuthorizedUser : String → DriveCredsState
  refreshCreds : DriveCredsState → Except String DriveCredsState
  driveFilesCreate : DriveCreateCall → Except String DriveCreatedFile
  driveFilesList : Option String → Except String (List DriveListedFile)

/-- Vendor-client interactions a handler performed, in order. -/
inductive VendorEvent where
  | s3ClientInit
  | s3PutObject (call : S3PutObjectCall)
  | s3ListObjects (bucket : String)
  | gcsClientInit
  | gcsUploadFromString (call : GcsUploadCall)
  | gcsListBlobs (bucket : String)
  | driveServiceInit
  | driveFilesCreate (call : DriveCreateCall)
  | driveFilesList (query : Option String)
deriving DecidableEq, Repr

/-- A raised `HTTPException(status_code, detail)`. -/
structure HttpError where
  statusCode : Nat
  detail : String
deriving DecidableEq, Repr

/-- Python `str()` of a starlette `HTTPException`:
`f"\x7bstatus_code\x7d: \x7bdetail\x7d"`. -/
def httpErrorStr (e : HttpError) : String :=
  toString e.statusCode ++ ": " ++ e.detail

/-- Whether a status code is in the 4xx client-error class. -/
def isClientError (status : Nat) : Bool :=
  400 ≤ status && status < 500

/-- A single quote character, used in the f-string messages. -/
def squote : String := "\x27"

/-- The `UploadResponse` pydantic model. -/
structure UploadResponse where
  success : Bool
  message : String
  file_url : Option String
  file_id : Option String
deriving DecidableEq, Repr

/-- Result of one upload handler: the HTTP response or raised error, the
upload stream state afterwards, and the vendor interactions performed. -/
structure UploadOutcome where
  result : Except HttpError UploadResponse
  file : UploadFileState
  trace : List VendorEvent

/-- Result of one list handler. -/
structure ListOutcome (α : Type) where
  result : Except HttpError α
  trace : List VendorEvent

/-- Model of `get_s3_client`: client construction either succeeds or
raises `HTTPException(500, "Failed to initialize S3 client: ...")`. -/
def get_s3_client (env : VendorEnv) : Except HttpError Unit :=
  match env.s3ClientInit with
  | .ok _ => .ok ()
  | .error e => .error ⟨500, "Failed to initialize S3 client: " ++ e⟩

/-- Model of `get_gcs_client`. -/
def get_gcs_client (env : VendorEnv) : Except HttpError Unit :=
  match env.gcsClientInit with
  | .ok _ => .ok ()
  | .error e => .error ⟨500, "Failed to initialize GCS client: " ++ e⟩

/-- An exception inside the `try` of `get_drive_service`: either the
`HTTPException(401, ...)` it raises itself or a raw exception (e.g. from
`creds.refresh`). -/
inductive DriveInitExc where
  | http (e : HttpError)
  | raw (msg : String)
deriving DecidableEq, Repr

/-- Python `str()` of a `DriveInitExc`. -/
def driveInitExcStr : DriveInitExc → String
  | .http e => httpErrorStr e
  | .raw m => m

/-- The detail of the 401 raised when no valid Drive credential is
available. -/
def driveAuthRequiredDetail : String :=
  "Google Drive authentication required. Please run google_auth_flow.py to authenticate."

/-- The hardcoded token path of `get_drive_service` (`token_path`). -/
def driveTokenPath : String := "cred/drive/token.json"

/-- Body of the `try` block of `get_drive_service`: load the token from
the hardcoded `token_path` if it exists, accept valid credentials,
refresh expired ones that have a refresh token, otherwise raise the 401
auth-required `HTTPException`. -/
def get_drive_service_inner (env : VendorEnv) : Except DriveInitExc Unit :=
  match (if env.pathExists driveTokenPath
         then some (env.loadAuthorizedUser driveTokenPath) else none) with
  | some c =>
      if c.valid then .ok ()
      else if c.expired && c.hasRefreshToken then
        match env.refreshCreds c with
        | .ok _ => .ok ()
        | .error m => .error (.raw m)
      else .error (.http ⟨401, driveAuthRequiredDetail⟩)
  | none => .error (.http ⟨401, driveAuthRequiredDetail⟩)

/-- Model of `get_drive_service`: its `except Exception` clause converts
every exception of the body (including its own 401) into
`HTTPException(500, "Failed to initialize Drive service: ...")`. -/
def get_drive_service (env : VendorEnv) : Except HttpError Unit :=
  match get_drive_service_inner env with
  | .ok _ => .ok ()
  | .error e => .error ⟨500, "Failed to initialize Drive service: " ++ driveInitExcStr e⟩

/-- The S3 object URL built by `upload_to_s3`. -/
def s3Url (cfg : CloudConfig) (filename : String) : String :=
  "https://" ++ cfg.s3BucketName.getD "" ++ ".s3." ++ cfg.awsRegion ++
    ".amazonaws.com/" ++ filename

/-- The `put_object` call `upload_to_s3` issues for a given stream
state: key = `file.filename`, body = the bytes `file.read()` returns. -/
def s3Call (cfg : CloudConfig) (f : UploadFileState) : S3PutObjectCall :=
  ⟨cfg.s3BucketName.getD "", f.filename, (fileRead f).1, f.contentType⟩

/-- Model of `POST /upload/s3` (`upload_to_s3`). -/
def upload_to_s3 (cfg : CloudConfig) (env : VendorEnv) (file : UploadFileState) :
    UploadOutcome :=
  if truthy cfg.s3BucketName = false then
    ⟨.error ⟨500, "S3 bucket name not configured"⟩, file, []⟩
  else
    match get_s3_client env with
    | .error e =>
        ⟨.error ⟨500, "Upload failed: " ++ httpErrorStr e⟩, file, [.s3ClientInit]⟩
    | .ok _ =>
        match env.s3PutObject (s3Call cfg file) with
        | .ok _ =>
            ⟨.ok ⟨true, "File " ++ squote ++ file.filename ++ squote ++
                " uploaded successfully to S3", some (s3Url cfg file.filename), none⟩,
             (fileRead file).2, [.s3ClientInit, .s3PutObject (s3Call cfg file)]⟩
        | .error .noCredentials =>
            ⟨.error ⟨401, "AWS credentials not found"⟩,
             (fileRead file).2, [.s3ClientInit, .s3PutObject (s3Call cfg file)]⟩
        | .error (.clientError m) =>
            ⟨.error ⟨500, "S3 upload failed: " ++ m⟩,
             (fileRead file).2, [.s3ClientInit, .s3PutObject (s3Call cfg file)]⟩
        | .error (.otherError m) =>
            ⟨.error ⟨500, "Upload failed: " ++ m⟩,
             (fileRead file).2, [.s3ClientInit, .s3PutObject (s3Call cfg file)]⟩

/-- The GCS object URL built by `upload_to_gcs`. -/
def gcsUrl (cfg : CloudConfig) (filename : String) : String :=
  "https://storage.googleapis.com/" ++ cfg.gcsBucketName.getD "" ++ "/" ++ filename

/-- The `upload_from_string` call `upload_to_gcs` issues. -/
def gcsCall (cfg : CloudConfig) (f : UploadFileState) : GcsUploadCall :=
  ⟨cfg.gcsBucketName.getD "", f.filename, (fileRead f).1, f.contentType⟩

/-- Model of `POST /upload/gcs` (`upload_to_gcs`); its single `except
Exception` clause wraps every failure, including the client-init
`HTTPException`, in "GCS upload failed: ...". -/
def upload_to_gcs (cfg : CloudConfig) (env : VendorEnv) (file : UploadFileState) :
    UploadOutcome :=
  if truthy cfg.gcsBucketName = false then
    ⟨.error ⟨500, "GCS bucket name not configured"⟩, file, []⟩
  else
    match get_gcs_client env with
    | .error e =>
        ⟨.error ⟨500, "GCS upload failed: " ++ httpErrorStr e⟩, file, [.gcsClientInit]⟩
    | .ok _ =>
        match env.gcsUploadFromString (gcsCall cfg file) with
        | .ok _ =>
            ⟨.ok ⟨true, "File " ++ squote ++ file.filename ++ squote ++
                " uploaded successfully to GCS", some (gcsUrl cfg file.filename), none⟩,
             (fileRead file).2, [.gcsClientInit, .gcsUploadFromString (gcsCall cfg file)]⟩
        | .error m =>
            ⟨.error ⟨500, "GCS upload failed: " ++ m⟩,
             (fileRead file).2, [.gcsClientInit, .gcsUploadFromString (gcsCall cfg file)]⟩

/-- The `files().create` call `upload_to_drive` issues: `parents` is set
only when `GOOGLE_DRIVE_FOLDER_ID` is truthy. -/
def driveCall (cfg : CloudConfig) (f : UploadFileState) : DriveCreateCall :=
  ⟨f.filename, (fileRead f).1, f.contentType,
   if truthy cfg.googleDriveFolderId then some (cfg.googleDriveFolderId.getD "") else none⟩

/-- Model of `POST /upload/drive` (`upload_to_drive`).  Note there is no
configuration guard: the handler goes straight to `get_drive_service`. -/
def upload_to_drive (cfg : CloudConfig) (env : VendorEnv) (file : UploadFileState) :
    UploadOutcome :=
  match get_drive_service env with
  | .error e =>
      ⟨.error ⟨500, "Google Drive upload failed: " ++ httpErrorStr e⟩,
       file, [.driveServiceInit]⟩
  | .ok _ =>
      match env.driveFilesCreate (driveCall cfg file) with
      | .ok uploaded =>
          ⟨.ok ⟨true, "File " ++ squote ++ file.filename ++ squote ++
              " uploaded successfully to Google Drive",
              uploaded.webViewLink, uploaded.id⟩,
           (fileRead file).2, [.driveServiceInit, .driveFilesCreate (driveCall cfg file)]⟩
      | .error m =>
          ⟨.error ⟨500, "Google Drive upload failed: " ++ m⟩,
           (fileRead file).2, [.driveServiceInit, .driveFilesCreate (driveCall cfg file)]⟩

/-- Identifier of a storage backend. -/
inductive Backend where
  | s3
  | gcs
  | drive
deriving DecidableEq, Repr

/-- One value of the `results` dictionary of `upload_to_all_services`:
a serialized `UploadResponse` on success of the inner handler, or the
`{"success": False, "message": str(e)}` dictionary on exception. -/
structure ResultEntry where
  success : Bool
  message : String
  file_url : Option String
  file_id : Option String
deriving DecidableEq, Repr

/-- Serialization `r.dict()` of an `UploadResponse`. -/
def responseEntry (r : UploadResponse) : ResultEntry :=
  ⟨r.success, r.message, r.file_url, r.file_id⟩

/-- The entry recorded by an `except Exception as e` clause of
`upload_to_all_services` (the keys `file_url`/`file_id` are absent,
modelled as `none`). -/
def failureEntry (e : HttpError) : ResultEntry :=
  ⟨false, httpErrorStr e, none, none⟩

/-- The entry `upload_to_all_services` records for one attempted
backend, from the inner handler's outcome. -/
def outcomeEntry : Except HttpError UploadResponse → ResultEntry
  | .ok r => responseEntry r
  | .error e => failureEntry e

/-- The body of the `POST /upload/all` response: the `results`
dictionary, as an insertion-ordered association list. -/
structure AggregateResponse where
  results : List (Backend × ResultEntry)
deriving DecidableEq, Repr

/-- Result of the `/upload/all` handler. -/
structure AllOutcome where
  result : Except HttpError AggregateResponse
  file : UploadFileState
  trace : List VendorEvent

/-- Guard of the S3 attempt in `upload_to_all_services`:
`if CloudConfig.S3_BUCKET_NAME and CloudConfig.AWS_ACCESS_KEY_ID`. -/
def s3AllGuard (cfg : CloudConfig) : Bool :=
  truthy cfg.s3BucketName && truthy cfg.awsAccessKeyId

/-- Guard of the GCS attempt in `upload_to_all_services`. -/
def gcsAllGuard (cfg : CloudConfig) : Bool :=
  truthy cfg.gcsBucketName

/-- Guard of the Drive attempt in `upload_to_all_services`. -/
def driveAllGuard (cfg : CloudConfig) : Bool :=
  truthy cfg.googleDriveCredentialsFile

/-- Model of `POST /upload/all` (`upload_to_all_services`): for each
backend in the fixed order S3, GCS, Drive, if its guard holds, seek the
stream to 0, run the single-backend handler, and record either the
serialized response or a failure entry; exceptions never escape the
per-backend `try`. -/
def upload_to_all_services (cfg : CloudConfig) (env : VendorEnv)
    (file : UploadFileState) : AllOutcome :=
  let step1 :
      List (Backend × ResultEntry) × UploadFileState × List VendorEvent :=
    if s3AllGuard cfg then
      ([(Backend.s3, outcomeEntry (upload_to_s3 cfg env (fileSeek0 file)).result)],
       (upload_to_s3 cfg env (fileSeek0 file)).file,
       (upload_to_s3 cfg env (fileSeek0 file)).trace)
    else ([], file, [])
  let step2 :
      List (Backend × ResultEntry) × UploadFileState × List VendorEvent :=
    if gcsAllGuard cfg then
      (step1.1 ++
        [(Backend.gcs, outcomeEntry (upload_to_gcs cfg env (fileSeek0 step1.2.1)).result)],
       (upload_to_gcs cfg env (fileSeek0 step1.2.1)).file,
       step1.2.2 ++ (upload_to_gcs cfg env (fileSeek0 step1.2.1)).trace)
    else step1
  let step3 :
      List (Backend × ResultEntry) × UploadFileState × List VendorEvent :=
    if driveAllGuard cfg then
      (step2.1 ++
        [(Backend.drive, outcomeEntry (upload_to_drive cfg env (fileSeek0 step2.2.1)).result)],
       (upload_to_drive cfg env (fileSeek0 step2.2.1)).file,
       step2.2.2 ++ (upload_to_drive cfg env (fileSeek0 step2.2.1)).trace)
    else step2
  ⟨.ok ⟨step3.1⟩, step3.2.1, step3.2.2⟩

/-- One entry of the `GET /list/s3` response. -/
structure S3FileEntry where
  key : String
  size : Nat
  last_modified : String
deriving DecidableEq, Repr

/-- Model of `GET /list/s3` (`list_s3_files`). -/
def list_s3_files (cfg : CloudConfig) (env : VendorEnv) :
    ListOutcome (List S3FileEntry) :=
  if truthy cfg.s3BucketName = false then
    ⟨.error ⟨500, "S3 bucket name not configured"⟩, []⟩
  else
    match get_s3_client env with
    | .error e =>
        ⟨.error ⟨500, "Failed to list S3 files: " ++ httpErrorStr e⟩, [.s3ClientInit]⟩
    | .ok _ =>
        match env.s3ListObjects (cfg.s3BucketName.getD "") with
        | .ok objs =>
            ⟨.ok (objs.map fun o => ⟨o.key, o.size, o.lastModifiedIso⟩),
             [.s3ClientInit, .s3ListObjects (cfg.s3BucketName.getD "")]⟩
        | .error m =>
            ⟨.error ⟨500, "Failed to list S3 files: " ++ m⟩,
             [.s3ClientInit, .s3ListObjects (cfg.s3BucketName.getD "")]⟩

/-- One entry of the `GET /list/gcs` response. -/
structure GcsFileEntry where
  name : String
  size : Nat
  updated : Option String
deriving DecidableEq, Repr

/-- Model of `GET /list/gcs` (`list_gcs_files`). -/
def list_gcs_files (cfg : CloudConfig) (env : VendorEnv) :
    ListOutcome (List GcsFileEntry) :=
  if truthy cfg.gcsBucketName = false then
    ⟨.error ⟨500, "GCS bucket name not configured"⟩, []⟩
  else
    match get_gcs_client env with
    | .error e =>
        ⟨.error ⟨500, "Failed to list GCS files: " ++ httpErrorStr e⟩, [.gcsClientInit]⟩
    | .ok _ =>
        match env.gcsListBlobs (cfg.gcsBucketName.getD "") with
        | .ok blobs =>
            ⟨.ok (blobs.map fun b => ⟨b.name, b.size, b.updatedIso⟩),
             [.gcsClientInit, .gcsListBlobs (cfg.gcsBucketName.getD "")]⟩
        | .error m =>
            ⟨.error ⟨500, "Failed to list GCS files: " ++ m⟩,
             [.gcsClientInit, .gcsListBlobs (cfg.gcsBucketName.getD "")]⟩

/-- The Drive list query: `'folderId' in parents` when a folder is
configured, else `None`. -/
def driveListQuery (cfg : CloudConfig) : Option String :=
  if truthy cfg.googleDriveFolderId then
    some (squote ++ cfg.googleDriveFolderId.getD "" ++ squote ++ " in parents")
  else none

/-- Model of `GET /list/drive` (`list_drive_files`); again no
configuration guard. -/
def list_drive_files (cfg : CloudConfig) (env : VendorEnv) :
    ListOutcome (List DriveListedFile) :=
  match get_drive_service env with
  | .error e =>
      ⟨.error ⟨500, "Failed to list Drive files: " ++ httpErrorStr e⟩, [.driveServiceInit]⟩
  | .ok _ =>
      match env.driveFilesList (driveListQuery cfg) with
      | .ok fs => ⟨.ok fs, [.driveServiceInit, .driveFilesList (driveListQuery cfg)]⟩
      | .error m =>
          ⟨.error ⟨500, "Failed to list Drive files: " ++ m⟩,
           [.driveServiceInit, .driveFilesList (driveListQuery cfg)]⟩

/-- The `services` object of the `GET /health` response. -/
structure HealthServices where
  s3_configured : Bool
  gcs_configured : Bool
  drive_configured : Bool
deriving DecidableEq, Repr

/-- The `GET /health` response body. -/
structure HealthResponse where
  status : String
  services : HealthServices
deriving DecidableEq, Repr

/-- Model of `GET /health` (`health_check`); it reads only the
configuration and performs no vendor call (it takes no `VendorEnv`). -/
def health_check (cfg : CloudConfig) : HealthResponse :=
  ⟨"healthy",
   ⟨truthy cfg.s3BucketName && truthy cfg.awsAccessKeyId,
    truthy cfg.gcsBucketName,
    truthy cfg.googleDriveCredentialsFile⟩⟩

/-- The fixed backend order of `upload_to_all_services`. -/
def registrationOrder : List Backend := [.s3, .gcs, .drive]

/-- The `upload_to_all_services` guard of one backend. -/
def allGuard (cfg : CloudConfig) : Backend → Bool
  | .s3 => s3AllGuard cfg
  | .gcs => gcsAllGuard cfg
  | .drive => driveAllGuard cfg

/-- The backends `upload_to_all_services` attempts, in order. -/
def configuredBackends (cfg : CloudConfig) : List Backend :=
  registrationOrder.filter (allGuard cfg)

/-- One backend's attempt as `upload_to_all_services` performs it: the
single-backend handler on the stream seeked to 0. -/
def attemptOutcome (cfg : CloudConfig) (env : VendorEnv) (file : UploadFileState) :
    Backend → UploadOutcome
  | .s3 => upload_to_s3 cfg env (fileSeek0 file)
  | .gcs => upload_to_gcs cfg env (fileSeek0 file)
  | .drive => upload_to_drive cfg env (fileSeek0 file)

/-- Whether a handler outcome is a raised exception. -/
def exceptFailed : Except HttpError UploadResponse → Bool
  | .ok _ => false
  | .error _ => true

/-- The keys of the aggregate `results` dictionary. -/
def aggregateKeys (o : AllOutcome) : List Backend :=
  match o.result with
  | .ok a => a.results.map Prod.fst
  | .error _ => []

/-- Whether a vendor event carries the file name, content type and full
content of the given stream (non-upload events carry no file data). -/
def eventFaithful (f : UploadFileState) : VendorEvent → Prop
  | .s3PutObject c => c.key = f.filename ∧ c.body = f.content ∧ c.contentType = f.contentType
  | .gcsUploadFromString c =>
      c.blobName = f.filename ∧ c.data = f.content ∧ c.contentType = f.contentType
  | .driveFilesCreate c =>
      c.name = f.filename ∧ c.data = f.content ∧ c.mimeType = f.contentType
  | _ => True

/-- A configuration with no environment variable set (the defaulted
region and token-file settings keep their defaults). -/
def cfgNone : CloudConfig :=
  ⟨none, none, "us-east-1", none, none, none, none, "token.json", none⟩

/-- A configuration where only S3 is configured (bucket and key set). -/
def cfgS3Only : CloudConfig :=
  ⟨some "AKIAEXAMPLE", some "secretkey", "us-east-1", some "bucket-a",
   none, none, none, "token.json", none⟩

/-- A configuration where every backend is configured. -/
def cfgAll : CloudConfig :=
  ⟨some "AKIAEXAMPLE", some "secretkey", "us-east-1", some "bucket-a",
   some "bucket-b", some "gcp.json", some "credentials.json", "token.json", none⟩

/-- A vendor environment where every call succeeds and the Drive token
is present and valid. -/
def envAllOk : VendorEnv :=
  ⟨.ok (), fun _ => .ok (), fun _ => .ok [], .ok (), fun _ => .ok (), fun _ => .ok [],
   fun _ => true, fun _ => ⟨true, false, false⟩, fun c => .ok c,
   fun _ => .ok ⟨some "drive-file-1", some "https://drive.example/view/1"⟩,
   fun _ => .ok []⟩

/-- Like `envAllOk` but the Drive `create` response has no
`webViewLink` field. -/
def envDriveNoLink : VendorEnv :=
  { envAllOk with driveFilesCreate := fun _ => .ok ⟨some "drive-file-1", none⟩ }

/-- A vendor environment where every vendor call fails and no Drive
token file exists. -/
def envNothingWorks : VendorEnv :=
  ⟨.ok (), fun _ => .error .noCredentials, fun _ => .error "down",
   .ok (), fun _ => .error "gcs down", fun _ => .error "down",
   fun _ => false, fun _ => ⟨false, false, false⟩, fun _ => .error "refresh failed",
   fun _ => .error "drive down", fun _ => .error "drive down"⟩

/-- The upload stream of the scenario file `a.txt` with content
`hello`, cursor at the start. -/
def fileA : UploadFileState :=
  ⟨"a.txt", "text/plain", [104, 101, 108, 108, 111], 0⟩

theorem fileSeek0_idem (f : UploadFileState) : fileSeek0 (fileSeek0 f) = fileSeek0 f := rfl

theorem seek0_upload_to_s3 (cfg : CloudConfig) (env : VendorEnv) (f : UploadFileState) :
    fileSeek0 (upload_to_s3 cfg env f).file = fileSeek0 f := by
  unfold upload_to_s3
  split
  · rfl
  · split
    · rfl
    · split <;> rfl

theorem seek0_upload_to_gcs (cfg : CloudConfig) (env : VendorEnv) (f : UploadFileState) :
    fileSeek0 (upload_to_gcs cfg env f).file = fileSeek0 f := by
  unfold upload_to_gcs
  split
  · rfl
  · split
    · rfl
    · split <;> rfl

theorem seek0_upload_to_drive (cfg : CloudConfig) (env : VendorEnv) (f : UploadFileState) :
    fileSeek0 (upload_to_drive cfg env f).file = fileSeek0 f := by
  unfold upload_to_drive
  split
  · rfl
  · split <;> rfl

theorem uploadAll_results_eq (cfg : CloudConfig) (env : VendorEnv) (f : UploadFileState) :
    (upload_to_all_services cfg env f).result =
      .ok ⟨(configuredBackends cfg).map
        (fun b => (b, outcomeEntry (attemptOutcome cfg env f b).result))⟩ := by
  unfold upload_to_all_services configuredBackends registrationOrder
  cases hs : s3AllGuard cfg <;> cases hg : gcsAllGuard cfg <;> cases hd : driveAllGuard cfg <;>
    simp [allGuard, hs, hg, hd, attemptOutcome, seek0_upload_to_s3, seek0_upload_to_gcs,
      fileSeek0_idem]

theorem uploadAll_trace_eq (cfg : CloudConfig) (env : VendorEnv) (f : UploadFileState) :
    (upload_to_all_services cfg env f).trace =
      (if s3AllGuard cfg then (upload_to_s3 cfg env (fileSeek0 f)).trace else []) ++
      (if gcsAllGuard cfg then (upload_to_gcs cfg env (fileSeek0 f)).trace else []) ++
      (if driveAllGuard cfg then (upload_to_drive cfg env (fileSeek0 f)).trace else []) := by
  unfold upload_to_all_services
  cases hs : s3AllGuard cfg <;> cases hg : gcsAllGuard cfg <;> cases hd : driveAllGuard cfg <;>
    simp [hs, hg, hd, seek0_upload_to_s3, seek0_upload_to_gcs, fileSeek0_idem]

theorem outcomeEntry_success_s3 (cfg : CloudConfig) (env : VendorEnv) (f : UploadFileState) :
    (outcomeEntry (upload_to_s3 cfg env f).result).success =
      !exceptFailed (upload_to_s3 cfg env f).result := by
  unfold upload_to_s3
  split
  · rfl
  · split
    · rfl
    · split <;> rfl

theorem outcomeEntry_success_gcs (cfg : CloudConfig) (env : VendorEnv) (f : UploadFileState) :
    (outcomeEntry (upload_to_gcs cfg env f).result).success =
      !exceptFailed (upload_to_gcs cfg env f).result := by
  unfold upload_to_gcs
  split
  · rfl
  · split
    · rfl
    · split <;> rfl

theorem outcomeEntry_success_drive (cfg : CloudConfig) (env : VendorEnv) (f : UploadFileState) :
    (outcomeEntry (upload_to_drive cfg env f).result).success =
      !exceptFailed (upload_to_drive cfg env f).result := by
  unfold upload_to_drive
  split
  · rfl
  · split <;> rfl

theorem outcomeEntry_success_attempt (cfg : CloudConfig) (env : VendorEnv)
    (f : UploadFileState) (b : Backend) :
    (outcomeEntry (attemptOutcome cfg env f b).result).success =
      !exceptFailed (attemptOutcome cfg env f b).result := by
  cases b
  · exact outcomeEntry_success_s3 cfg env (fileSeek0 f)
  · exact outcomeEntry_success_gcs cfg env (fileSeek0 f)
  · exact outcomeEntry_success_drive cfg env (fileSeek0 f)

theorem s3_trace_faithful (cfg : CloudConfig) (env : VendorEnv) (f : UploadFileState)
    (hpos : f.pos = 0) : ∀ e ∈ (upload_to_s3 cfg env f).trace, eventFaithful f e := by
  unfold upload_to_s3
  split
  · simp
  · split
    · simp [eventFaithful]
    · split <;> simp [eventFaithful, s3Call, fileRead, hpos]

theorem gcs_trace_faithful (cfg : CloudConfig) (env : VendorEnv) (f : UploadFileState)
    (hpos : f.pos = 0) : ∀ e ∈ (upload_to_gcs cfg env f).trace, eventFaithful f e := by
  unfold upload_to_gcs
  split
  · simp
  · split
    · simp [eventFaithful]
    · split <;> simp [eventFaithful, gcsCall, fileRead, hpos]

theorem drive_trace_faithful (cfg : CloudConfig) (env : VendorEnv) (f : UploadFileState)
    (hpos : f.pos = 0) : ∀ e ∈ (upload_to_drive cfg env f).trace, eventFaithful f e := by
  unfold upload_to_drive
  split
  · simp [eventFaithful]
  · split <;> simp [eventFaithful, driveCall, fileRead, hpos]

theorem eventFaithful_seek0 (f : UploadFileState) (e : VendorEvent) :
    eventFaithful (fileSeek0 f) e ↔ eventFaithful f e := by
  cases e <;> exact Iff.rfl

theorem mem_aggregateKeys_iff (cfg : CloudConfig) (env : VendorEnv) (f : UploadFileState)
    (b : Backend) :
    b ∈ aggregateKeys (upload_to_all_services cfg env f) ↔ allGuard cfg b = true := by
  have h := uploadAll_results_eq cfg env f
  unfold aggregateKeys
  rw [h]
  simp only [List.map_map]
  have hmap : (Prod.fst ∘ fun b => (b, outcomeEntry (attemptOutcome cfg env f b).result)) =
      (id : Backend → Backend) := rfl
  rw [hmap, List.map_id]
  unfold configuredBackends registrationOrder
  rw [List.mem_filter]
  constructor
  · exact fun hx => hx.2
  · intro hg
    refine ⟨?_, hg⟩
    cases b <;> simp

/-- C1: `upload_to_all_services` attempts every configured backend and
never aborts early: with N backends passing their guards, the returned
`results` mapping has exactly N entries, keyed by exactly the configured
backends in order, and the number of entries with `success = false`
equals the number of attempted single-backend handler calls that raised;
no attempt's failure removes another configured backend from the map. -/
theorem uploadAll_attempts_all_and_counts_failures (cfg : CloudConfig) (env : VendorEnv)
    (f : UploadFileState) :
    ∃ rs : List (Backend × ResultEntry),
      (upload_to_all_services cfg env f).result = .ok ⟨rs⟩ ∧
      rs.map Prod.fst = configuredBackends cfg ∧
      rs.length = (configuredBackends cfg).length ∧
      (rs.filter (fun p => !p.2.success)).length =
        ((configuredBackends cfg).filter
          (fun b => exceptFailed (attemptOutcome cfg env f b).result)).length := by
  refine ⟨_, uploadAll_results_eq cfg env f, ?_, ?_, ?_⟩
  · simp only [List.map_map]
    have hmap : (Prod.fst ∘ fun b => (b, outcomeEntry (attemptOutcome cfg env f b).result)) =
        (id : Backend → Backend) := rfl
    rw [hmap, List.map_id]
  · simp
  · rw [← List.countP_eq_length_filter, ← List.countP_eq_length_filter, List.countP_map]
    congr 1
    funext b
    simp [Function.comp, outcomeEntry_success_attempt]

/-- C3: a backend whose `upload_to_all_services` guard is false never
appears as a key of the `results` mapping (membership is exactly the
guard); with nothing configured the mapping is empty; and with only S3
configured the mapping holds exactly one entry, for S3, and it is a
success when the vendor calls succeed. -/
theorem uploadAll_keys_are_configured_backends :
    (∀ (cfg : CloudConfig) (env : VendorEnv) (f : UploadFileState) (b : Backend),
        b ∈ aggregateKeys (upload_to_all_services cfg env f) ↔ allGuard cfg b = true) ∧
    aggregateKeys (upload_to_all_services cfgNone envAllOk fileA) = [] ∧
    (∃ e : ResultEntry,
        (upload_to_all_services cfgS3Only envAllOk fileA).result =
          .ok ⟨[(Backend.s3, e)]⟩ ∧ e.success = true) := by
  refine ⟨mem_aggregateKeys_iff, rfl, ⟨_, rfl, rfl⟩⟩

/-- C7: the insertion order of the keys of the `results` mapping of
`upload_to_all_services` equals the invocation order, which is the fixed
registration order S3, then GCS, then Drive, restricted to the
configured backends. -/
theorem uploadAll_key_order_is_registration_order (cfg : CloudConfig) (env : VendorEnv)
    (f : UploadFileState) :
    aggregateKeys (upload_to_all_services cfg env f) =
      registrationOrder.filter (allGuard cfg) ∧
    registrationOrder = [Backend.s3, Backend.gcs, Backend.drive] := by
  constructor
  · have h := uploadAll_results_eq cfg env f
    unfold aggregateKeys
    rw [h]
    simp only [List.map_map]
    have hmap : (Prod.fst ∘ fun b => (b, outcomeEntry (attemptOutcome cfg env f b).result)) =
        (id : Backend → Backend) := rfl
    rw [hmap, List.map_id]
    rfl
  · rfl

/-- C8: `upload_to_all_services` never propagates an exception: for
every configuration, vendor behaviour and stream state its result is an
`ok` response of shape `results = mapping`, whose keys all lie in
the set of the three known backends and whose every entry carries a
(two-valued) `success` flag. -/
theorem uploadAll_total_and_shaped (cfg : CloudConfig) (env : VendorEnv)
    (f : UploadFileState) :
    ∃ rs : List (Backend × ResultEntry),
      (upload_to_all_services cfg env f).result = Except.ok ⟨rs⟩ ∧
      (∀ p ∈ rs, p.1 = Backend.s3 ∨ p.1 = Backend.gcs ∨ p.1 = Backend.drive) ∧
      (∀ p ∈ rs, p.2.success = true ∨ p.2.success = false) := by
  refine ⟨_, uploadAll_results_eq cfg env f, ?_, ?_⟩
  · intro p hp
    simp only [List.mem_map] at hp
    obtain ⟨b, _, rfl⟩ := hp
    cases b
    · exact Or.inl rfl
    · exact Or.inr (Or.inl rfl)
    · exact Or.inr (Or.inr rfl)
  · intro p _
    cases h : p.2.success
    · exact Or.inr rfl
    · exact Or.inl rfl

/-- C4: `health_check` reports, per backend, exactly the presence of
that backend's configuration — the same guards `upload_to_all_services`
routes by (S3: bucket name and access key both truthy; GCS: bucket name
truthy; Drive: credentials-file setting truthy) — and, taking no
`VendorEnv`, cannot depend on backend reachability; with no backends
configured all three flags are false. -/
theorem health_reports_config_presence :
    (∀ cfg : CloudConfig,
        health_check cfg =
          ⟨"healthy", ⟨allGuard cfg .s3, allGuard cfg .gcs, allGuard cfg .drive⟩⟩) ∧
    (health_check cfgNone).services = ⟨false, false, false⟩ := by
  exact ⟨fun cfg => rfl, rfl⟩

/-- C2 counterexample: with no backend configured, the missing-config
failure of `upload_to_s3` is `HTTPException(500, ...)` — a server
error, not a client error — and the Drive upload handler, far from
failing before any adapter is reached, reaches the Drive service
initialization (nonempty trace) and can even succeed outright. -/
theorem notConfigured_client_error_cex :
    (upload_to_s3 cfgNone envAllOk fileA).result =
      .error ⟨500, "S3 bucket name not configured"⟩ ∧
    isClientError 500 = false ∧
    (upload_to_drive cfgNone envNothingWorks fileA).trace = [.driveServiceInit] ∧
    (∃ r, (upload_to_drive cfgNone envAllOk fileA).result = .ok r ∧ r.success = true) := by
  exact ⟨rfl, rfl, rfl, ⟨_, rfl, rfl⟩⟩

/-- C2 (amended): for S3 and GCS, when the bucket-name setting is not
truthy, the upload and list handlers fail with a "not configured"
`HTTPException(500, ...)` — a server error, not a client error — before
any vendor client is reached (empty trace); the Drive upload and list
handlers perform no configuration check and always reach the Drive
service initialization first, whatever the configuration. -/
theorem notConfigured_rejection_amended (cfg : CloudConfig) (env : VendorEnv)
    (f : UploadFileState) :
    (truthy cfg.s3BucketName = false →
      (upload_to_s3 cfg env f).result = .error ⟨500, "S3 bucket name not configured"⟩ ∧
      (upload_to_s3 cfg env f).trace = [] ∧
      (list_s3_files cfg env).result = .error ⟨500, "S3 bucket name not configured"⟩ ∧
      (list_s3_files cfg env).trace = []) ∧
    (truthy cfg.gcsBucketName = false →
      (upload_to_gcs cfg env f).result = .error ⟨500, "GCS bucket name not configured"⟩ ∧
      (upload_to_gcs cfg env f).trace = [] ∧
      (list_gcs_files cfg env).result = .error ⟨500, "GCS bucket name not configured"⟩ ∧
      (list_gcs_files cfg env).trace = []) ∧
    ((upload_to_drive cfg env f).trace.head? = some VendorEvent.driveServiceInit ∧
      (list_drive_files cfg env).trace.head? = some VendorEvent.driveServiceInit) ∧
    isClientError 500 = false := by
  refine ⟨?_, ?_, ⟨?_, ?_⟩, rfl⟩
  · intro h
    refine ⟨?_, ?_, ?_, ?_⟩ <;> simp [upload_to_s3, list_s3_files, h]
  · intro h
    refine ⟨?_, ?_, ?_, ?_⟩ <;> simp [upload_to_gcs, list_gcs_files, h]
  · unfold upload_to_drive
    split
    · rfl
    · split <;> rfl
  · unfold list_drive_files
    split
    · rfl
    · split <;> rfl

/-- Witness for the amended C2 at a concrete unconfigured setup. -/
theorem notConfigured_rejection_amended_witness :
    (upload_to_s3 cfgNone envAllOk fileA).result =
      .error ⟨500, "S3 bucket name not configured"⟩ ∧
    (upload_to_gcs cfgNone envAllOk fileA).trace = [] ∧
    (upload_to_drive cfgNone envAllOk fileA).trace.head? =
      some VendorEvent.driveServiceInit := by
  have h := notConfigured_rejection_amended cfgNone envAllOk fileA
  exact ⟨(h.1 rfl).1, ((h.2.1) rfl).2.1, h.2.2.1.1⟩

theorem s3Url_ne_empty (cfg : CloudConfig) (fn : String) : s3Url cfg fn ≠ "" := by
  intro h
  have hl := congrArg String.length h
  simp only [s3Url, String.length_append] at hl
  have h8 : ("https://").length = 8 := rfl
  have h0 : ("").length = 0 := rfl
  omega

theorem gcsUrl_ne_empty (cfg : CloudConfig) (fn : String) : gcsUrl cfg fn ≠ "" := by
  intro h
  have hl := congrArg String.length h
  simp only [gcsUrl, String.length_append] at hl
  have h8 : ("https://storage.googleapis.com/").length = 31 := rfl
  have h0 : ("").length = 0 := rfl
  omega

/-- C5 counterexample: with every backend configured and the Drive
vendor call succeeding, `upload_to_drive` returns `success = true` with
`file_url = none` when the vendor response carries no `webViewLink` —
the handler copies `uploaded_file.get('webViewLink')` verbatim — so the
claimed non-empty `file_url` fails for the Drive backend. -/
theorem uploadOne_nonempty_url_cex :
    ∃ r : UploadResponse,
      (upload_to_drive cfgAll envDriveNoLink fileA).result = .ok r ∧
      r.success = true ∧ r.file_url = none := by
  exact ⟨_, rfl, rfl, rfl⟩

/-- C5 (amended): when the vendor call succeeds, the single-backend
upload handlers return `success = true`; for S3 and GCS the `file_url`
is a locally built, always non-empty URL, while for Drive the `file_url`
is exactly the `webViewLink` the vendor returned (and so may be
absent). -/
theorem uploadOne_success_url_amended (cfg : CloudConfig) (env : VendorEnv)
    (f : UploadFileState) :
    (truthy cfg.s3BucketName = true → env.s3ClientInit = .ok () →
      env.s3PutObject (s3Call cfg f) = .ok () →
      ∃ u, (upload_to_s3 cfg env f).result =
          .ok ⟨true, "File " ++ squote ++ f.filename ++ squote ++
                " uploaded successfully to S3", some u, none⟩ ∧ u ≠ "") ∧
    (truthy cfg.gcsBucketName = true → env.gcsClientInit = .ok () →
      env.gcsUploadFromString (gcsCall cfg f) = .ok () →
      ∃ u, (upload_to_gcs cfg env f).result =
          .ok ⟨true, "File " ++ squote ++ f.filename ++ squote ++
                " uploaded successfully to GCS", some u, none⟩ ∧ u ≠ "") ∧
    (∀ d : DriveCreatedFile, get_drive_service env = .ok () →
      env.driveFilesCreate (driveCall cfg f) = .ok d →
      (upload_to_drive cfg env f).result =
        .ok ⟨true, "File " ++ squote ++ f.filename ++ squote ++
              " uploaded successfully to Google Drive", d.webViewLink, d.id⟩) := by
  refine ⟨?_, ?_, ?_⟩
  · intro hb hinit hput
    refine ⟨s3Url cfg f.filename, ?_, s3Url_ne_empty cfg f.filename⟩
    simp [upload_to_s3, hb, get_s3_client, hinit, hput]
  · intro hb hinit hput
    refine ⟨gcsUrl cfg f.filename, ?_, gcsUrl_ne_empty cfg f.filename⟩
    simp [upload_to_gcs, hb, get_gcs_client, hinit, hput]
  · intro d hserv hcreate
    simp [upload_to_drive, hserv, hcreate]

/-- Witness for the amended C5 at a fully configured setup where every
vendor call succeeds. -/
theorem uploadOne_success_url_amended_witness :
    (∃ u, (upload_to_s3 cfgAll envAllOk fileA).result =
        .ok ⟨true, "File " ++ squote ++ "a.txt" ++ squote ++
              " uploaded successfully to S3", some u, none⟩ ∧ u ≠ "") ∧
    (∃ u, (upload_to_gcs cfgAll envAllOk fileA).result =
        .ok ⟨true, "File " ++ squote ++ "a.txt" ++ squote ++
              " uploaded successfully to GCS", some u, none⟩ ∧ u ≠ "") ∧
    (upload_to_drive cfgAll envAllOk fileA).result =
      .ok ⟨true, "File " ++ squote ++ "a.txt" ++ squote ++
            " uploaded successfully to Google Drive",
           some "https://drive.example/view/1", some "drive-file-1"⟩ := by
  have h := uploadOne_success_url_amended cfgAll envAllOk fileA
  exact ⟨h.1 rfl rfl rfl, h.2.1 rfl rfl rfl,
    h.2.2 ⟨some "drive-file-1", some "https://drive.example/view/1"⟩ rfl rfl⟩

/-- C6: every vendor upload call a handler issues carries the original
file name, content type and full content bytes, untransformed: the
single-backend handlers pass the bytes `read()` returns from the start
of the stream, and `upload_to_all_services` seeks the stream back to 0
before each backend's attempt, so every attempted backend receives the
complete original content whatever the cursor position left by earlier
attempts. -/
theorem vendor_calls_preserve_name_and_content (cfg : CloudConfig) (env : VendorEnv)
    (f : UploadFileState) :
    (f.pos = 0 → ∀ e ∈ (upload_to_s3 cfg env f).trace, eventFaithful f e) ∧
    (f.pos = 0 → ∀ e ∈ (upload_to_gcs cfg env f).trace, eventFaithful f e) ∧
    (f.pos = 0 → ∀ e ∈ (upload_to_drive cfg env f).trace, eventFaithful f e) ∧
    (∀ e ∈ (upload_to_all_services cfg env f).trace, eventFaithful f e) := by
  refine ⟨s3_trace_faithful cfg env f, gcs_trace_faithful cfg env f,
    drive_trace_faithful cfg env f, ?_⟩
  have hs3 : ∀ e ∈ (if s3AllGuard cfg then (upload_to_s3 cfg env (fileSeek0 f)).trace
      else []), eventFaithful f e := by
    split
    · intro e he
      exact (eventFaithful_seek0 f e).mp (s3_trace_faithful cfg env (fileSeek0 f) rfl e he)
    · intro e he
      simp at he
  have hgcs : ∀ e ∈ (if gcsAllGuard cfg then (upload_to_gcs cfg env (fileSeek0 f)).trace
      else []), eventFaithful f e := by
    split
    · intro e he
      exact (eventFaithful_seek0 f e).mp (gcs_trace_faithful cfg env (fileSeek0 f) rfl e he)
    · intro e he
      simp at he
  have hdrv : ∀ e ∈ (if driveAllGuard cfg then (upload_to_drive cfg env (fileSeek0 f)).trace
      else []), eventFaithful f e := by
    split
    · intro e he
      exact (eventFaithful_seek0 f e).mp (drive_trace_faithful cfg env (fileSeek0 f) rfl e he)
    · intro e he
      simp at he
  intro e he
  rw [uploadAll_trace_eq] at he
  rcases List.mem_append.mp he with h | h
  · rcases List.mem_append.mp h with h2 | h2
    · exact hs3 e h2
    · exact hgcs e h2
  · exact hdrv e h

/-- Witness for C6 at a fully configured setup with the scenario file. -/
theorem vendor_calls_preserve_name_and_content_witness :
    (∀ e ∈ (upload_to_s3 cfgAll envAllOk fileA).trace, eventFaithful fileA e) ∧
    (∀ e ∈ (upload_to_all_services cfgAll envAllOk fileA).trace, eventFaithful fileA e) := by
  have h := vendor_calls_preserve_name_and_content cfgAll envAllOk fileA
  exact ⟨h.1 rfl, h.2.2.2⟩

/-- C9: the Drive handlers never consult the
`GOOGLE_DRIVE_CREDENTIALS_FILE` and `GOOGLE_DRIVE_TOKEN_FILE` settings —
two runs whose configurations differ only in those settings behave
identically — and the Drive service initialization consults the
filesystem only at the hardcoded token path `cred/drive/token.json`;
those settings influence only the `/upload/all` routing guard and the
health flag, never the credentials actually used. -/
theorem drive_ignores_credential_settings (cfg : CloudConfig) (env : VendorEnv)
    (f : UploadFileState) (a : Option String) (b : String) :
    upload_to_drive
        { cfg with googleDriveCredentialsFile := a, googleDriveTokenFile := b } env f =
      upload_to_drive cfg env f ∧
    list_drive_files
        { cfg with googleDriveCredentialsFile := a, googleDriveTokenFile := b } env =
      list_drive_files cfg env ∧
    (∀ env' : VendorEnv,
      env'.pathExists driveTokenPath = env.pathExists driveTokenPath →
      env'.loadAuthorizedUser driveTokenPath = env.loadAuthorizedUser driveTokenPath →
      env'.refreshCreds = env.refreshCreds →
      get_drive_service env' = get_drive_service env) := by
  refine ⟨?_, ?_, ?_⟩
  · cases cfg
    rfl
  · cases cfg
    rfl
  · intro env' h1 h2 h3
    unfold get_drive_service get_drive_service_inner
    rw [h1, h2, h3]

/-- Witness for C9: changing only the Drive settings, or only non-Drive
parts of the vendor environment, leaves the Drive behaviour unchanged. -/
theorem drive_ignores_credential_settings_witness :
    upload_to_drive
        { cfgAll with googleDriveCredentialsFile := none,
                      googleDriveTokenFile := "elsewhere.json" } envAllOk fileA =
      upload_to_drive cfgAll envAllOk fileA ∧
    get_drive_service { envAllOk with gcsClientInit := .error "down" } =
      get_drive_service envAllOk := by
  have h := drive_ignores_credential_settings cfgAll envAllOk fileA none "elsewhere.json"
  exact ⟨h.1, h.2.2 { envAllOk with gcsClientInit := .error "down" } rfl rfl rfl⟩

/-- C10: "configured" is asymmetric for S3: when the bucket name is
truthy but the access key is not, `upload_to_s3` passes its guard and
reaches the S3 client (failing only at the vendor call, e.g. with the
401 `NoCredentialsError` mapping), while `health_check` reports
`s3_configured = false` and `upload_to_all_services` skips S3
entirely. -/
theorem s3_configured_asymmetry (cfg : CloudConfig) (env : VendorEnv) (f : UploadFileState)
    (hb : truthy cfg.s3BucketName = true) (hk : truthy cfg.awsAccessKeyId = false) :
    (upload_to_s3 cfg env f).trace.head? = some VendorEvent.s3ClientInit ∧
    (env.s3ClientInit = .ok () → env.s3PutObject (s3Call cfg f) = .error .noCredentials →
      (upload_to_s3 cfg env f).result = .error ⟨401, "AWS credentials not found"⟩) ∧
    (health_check cfg).services.s3_configured = false ∧
    Backend.s3 ∉ aggregateKeys (upload_to_all_services cfg env f) := by
  refine ⟨?_, ?_, ?_, ?_⟩
  · unfold upload_to_s3
    rw [hb]
    simp only [Bool.true_eq_false, if_false]
    split
    · rfl
    · split <;> rfl
  · intro hinit hput
    simp [upload_to_s3, hb, get_s3_client, hinit, hput]
  · simp [health_check, hb, hk]
  · rw [mem_aggregateKeys_iff]
    simp [allGuard, s3AllGuard, hb, hk]

/-- Witness for C10: bucket set, access key absent, vendor without
credentials. -/
theorem s3_configured_asymmetry_witness :
    (upload_to_s3 { cfgNone with s3BucketName := some "bucket-a" }
        envNothingWorks fileA).trace.head? = some VendorEvent.s3ClientInit ∧
    (upload_to_s3 { cfgNone with s3BucketName := some "bucket-a" }
        envNothingWorks fileA).result = .error ⟨401, "AWS credentials not found"⟩ ∧
    (health_check { cfgNone with s3BucketName := some "bucket-a" }).services.s3_configured
      = false ∧
    Backend.s3 ∉ aggregateKeys (upload_to_all_services
        { cfgNone with s3BucketName := some "bucket-a" } envNothingWorks fileA) := by
  have h := s3_configured_asymmetry { cfgNone with s3BucketName := some "bucket-a" }
    envNothingWorks fileA rfl rfl
  exact ⟨h.1, h.2.1 rfl rfl, h.2.2.1, h.2.2.2⟩
